import Mathlib

/-!
Verification development for the run-orchestration script (`run.py`) of the
SWE-agent repository: per-instance skip/resume decisions, the PR-eligibility
gate, persistence of predictions and patches, and the batch run loop.

The embedding is shallow: Python dictionaries with known fields become
structures with `Option` fields (a `none` field models an absent key),
the file system of the run directory becomes association lists from file
names to contents, and functions that can raise become functions into an
explicit result type with an error constructor.
-/

/-- Abstract syntax of the regular expressions relevant to the instance
filter: empty language, empty string, single character, wildcard `.`,
alternation, concatenation and Kleene star. -/
inductive Regex where
  | emp
  | eps
  | char (c : Char)
  | dot
  | alt (r1 r2 : Regex)
  | cat (r1 r2 : Regex)
  | star (r : Regex)
deriving DecidableEq, Repr

/-- Whether a regex accepts the empty string. -/
def nullable : Regex → Bool
  | .emp => false
  | .eps => true
  | .char _ => false
  | .dot => false
  | .alt r1 r2 => nullable r1 || nullable r2
  | .cat r1 r2 => nullable r1 && nullable r2
  | .star _ => true

/-- Brzozowski derivative of a regex with respect to one character. -/
def rderiv : Regex → Char → Regex
  | .emp, _ => .emp
  | .eps, _ => .emp
  | .char c, a => if a = c then .eps else .emp
  | .dot, _ => .eps
  | .alt r1 r2, a => .alt (rderiv r1 a) (rderiv r2 a)
  | .cat r1 r2, a =>
      if nullable r1 then .alt (.cat (rderiv r1 a) r2) (rderiv r2 a)
      else .cat (rderiv r1 a) r2
  | .star r, a => .cat (rderiv r a) (.star r)

/-- Whether a regex matches the ENTIRE character list (the semantics of
Python `re.fullmatch`, and the "full-match semantics" the specification
ascribes to the instance filter). -/
def reFullmatch (r : Regex) : List Char → Bool
  | [] => nullable r
  | c :: cs => reFullmatch (rderiv r c) cs

/-- Whether a regex matches at the START of the character list, i.e. matches
some initial segment of it (the semantics of Python `re.match`, which is what
`should_skip` in `run.py` actually calls). -/
def reMatch (r : Regex) : List Char → Bool
  | [] => nullable r
  | c :: cs => nullable r || reMatch (rderiv r c) cs

/-- Python `re.match(pattern, s) is not None` on a string. -/
def reMatchStr (r : Regex) (s : String) : Bool :=
  reMatch r s.data

/-- Full-match on a string: the pattern must cover the whole identifier. -/
def reFullmatchStr (r : Regex) (s : String) : Bool :=
  reFullmatch r s.data

/-- The `info` object stored inside a trajectory file; `exit_status` is
`none` when the JSON object has no `exit_status` key. -/
structure TrajInfo where
  exit_status : Option String
deriving DecidableEq, Repr

/-- A trajectory file `<instance_id>.traj`: the part `should_skip` reads is
the nested `info` object. -/
structure TrajFile where
  info : TrajInfo
deriving DecidableEq, Repr

/-- The `environment` part of the script arguments (only the field the
embedded functions touch). -/
structure EnvironmentArguments where
  data_path : String
deriving DecidableEq, Repr

/-- The `actions` dataclass of `run.py` (fields as in the source; the
constructor-time validation of `__post_init__` is `mkActionsArguments`). -/
structure ActionsArguments where
  open_pr : Bool
  skip_if_commits_reference_issue : Bool
  push_gh_repo_url : String
deriving DecidableEq, Repr

/-- Result of running the frozen-dataclass constructor: either the value, or
the `ValueError` that `__post_init__` raises. -/
inductive CtorResult where
  | ok (a : ActionsArguments)
  | valueError
deriving DecidableEq, Repr

/-- The dataclass constructor together with `ActionsArguments.__post_init__`:
it raises `ValueError` when `skip_if_commits_reference_issue` is false and
`push_gh_repo_url` is truthy (a non-empty string), and otherwise yields the
frozen value. -/
def mkActionsArguments (open_pr skip_if_commits_reference_issue : Bool)
    (push_gh_repo_url : String) : CtorResult :=
  if !skip_if_commits_reference_issue && !(push_gh_repo_url == "") then
    .valueError
  else
    .ok ⟨open_pr, skip_if_commits_reference_issue, push_gh_repo_url⟩

/-- The `ScriptArguments` fields used by the embedded control flow.
`instance_filter` is the compiled form of the filter pattern. -/
structure ScriptArguments where
  environment : EnvironmentArguments
  actions : ActionsArguments
  instance_filter : Regex
  skip_existing : Bool
  raise_exceptions : Bool
deriving DecidableEq, Repr

/-- The decision of `should_skip` together with the trajectory files of the
run directory after the call (the function deletes an incomplete trajectory
file as a side effect).  The trajectory store is an association list from
instance identifier to the parsed file; `true` means SKIP. -/
def should_skip (args : ScriptArguments) (trajs : List (String × TrajFile))
    (instance_id : String) : Bool × List (String × TrajFile) :=
  if reMatchStr args.instance_filter instance_id = false then
    (true, trajs)
  else if args.skip_existing = false then
    (false, trajs)
  else
    match trajs.lookup instance_id with
    | none => (false, trajs)
    | some data =>
        if data.info.exit_status = some "early_exit" ∨
            data.info.exit_status = none then
          (false, trajs.filter (fun p => p.1 != instance_id))
        else
          (true, trajs)

/-- A run outcome dictionary (`info`) as the persistence functions and the PR
gate see it: the `submission` and `exit_status` keys, each `none` when the
key is absent. -/
structure Info where
  submission : Option String
  exit_status : Option String
deriving DecidableEq, Repr

/-- Python truthiness of `d.get(key)` for an optional string field: falsy
when the key is absent and when the value is the empty string. -/
def truthyOptStr : Option String → Bool
  | none => false
  | some s => !(s == "")

/-- The issue metadata the PR gate inspects, as returned by the external
issue lookup. -/
structure IssueData where
  state : String
  locked : Bool
deriving DecidableEq, Repr

/-- Result of `get_gh_issue_data` on the configured data path: either the
issue metadata, or the `InvalidGithubURL` error raised when the data source
is not a recognized host. -/
inductive IssueLookup where
  | invalidGithubURL
  | found (issue : IssueData)
deriving DecidableEq, Repr

/-- Result of `should_open_pr`: the boolean decision, or the `KeyError` the
bare dictionary indexing `info[key]` raises when the key is absent. -/
inductive PrResult where
  | ok (b : Bool)
  | keyError (key : String)
deriving DecidableEq, Repr

/-- The PR gate `should_open_pr` of `run.py`.  The external lookup of the
issue and of its associated commits are oracle parameters fixed by the data
path and token; everything else follows the source line by line:
truthiness test on `info.get("submission")`, bare indexing of
`info["exit_status"]` (raising `KeyError` when absent), recovery of
`InvalidGithubURL` from the lookup, then the state, lock and
associated-commit checks. -/
def should_open_pr (args : ScriptArguments) (info : Info)
    (lookup : IssueLookup) (associated_commits : List String) : PrResult :=
  if truthyOptStr info.submission = false then
    .ok false
  else
    match info.exit_status with
    | none => .keyError "exit_status"
    | some exit_status =>
      if !(exit_status == "submitted") then
        .ok false
      else
        match lookup with
        | .invalidGithubURL => .ok false
        | .found issue =>
          if !(issue.state == "open") then
            .ok false
          else if issue.locked then
            .ok false
          else
            match associated_commits with
            | [] => .ok true
            | _ :: _ =>
                if args.actions.skip_if_commits_reference_issue then
                  .ok false
                else
                  .ok true

/-- One line of the `all_preds.jsonl` ledger: the JSON object written by
`save_predictions`, with `prediction = none` encoding JSON `null`. -/
structure Datum where
  model : String
  instance_id : String
  prediction : Option String
deriving DecidableEq, Repr

/-- The run directory: its name (used as the model key of ledger lines), the
trajectory files, the `all_preds.jsonl` ledger as the list of its lines, and
the `patches/` directory as an association list from file name to content. -/
structure RunDir where
  run_name : String
  trajs : List (String × TrajFile)
  ledger : List Datum
  patches : List (String × String)
deriving DecidableEq, Repr

/-- `Path.write_text`: full overwrite of one file in a directory modelled as
an association list. -/
def writeText (files : List (String × String)) (path content : String) :
    List (String × String) :=
  (path, content) :: files.filter (fun p => p.1 != path)

/-- Read one file back from a directory association list. -/
def readText (files : List (String × String)) (path : String) :
    Option String :=
  files.lookup path

/-- `save_predictions` of `run.py`: build the datum
(run name, instance identifier, submission-or-null) and append it as one
line to `all_preds.jsonl` (the source opens the file in append mode and
prints the line with an immediate flush, so the append is durable as soon
as it happens). -/
def save_predictions (dir : RunDir) (instance_id : String) (info : Info) :
    RunDir :=
  let model_patch := info.submission
  let datum : Datum := ⟨dir.run_name, instance_id, model_patch⟩
  { dir with ledger := dir.ledger ++ [datum] }

/-- `save_patch` of `run.py`: when the `submission` key is absent, write
nothing and return `none`; otherwise overwrite
`patches/<instance_id>.patch` with exactly the submission text and return
the path. -/
def save_patch (dir : RunDir) (instance_id : String) (info : Info) :
    Option String × RunDir :=
  let patch_output_file := instance_id ++ ".patch"
  match info.submission with
  | none => (none, dir)
  | some model_patch =>
      (some patch_output_file,
       { dir with patches := writeText dir.patches patch_output_file model_patch })

/-- How one loop iteration's delegated work goes, as an oracle for the
external collaborators: the environment reset yields no usable info
(`resetNone`, the loop continues), the agent run returns an outcome
(`ok`), an unhandled exception is raised somewhere in the try body
(`raises`), or a keyboard interrupt arrives (`interrupt`). -/
inductive AgentStep where
  | ok (info : Info)
  | resetNone
  | raises
  | interrupt
deriving DecidableEq, Repr

/-- How the batch loop of `main` ended: it ran off the end of the dataset,
an exception propagated in strict mode, or an interrupt broke it. -/
inductive LoopExit where
  | completed
  | aborted
  | interrupted
deriving DecidableEq, Repr

/-- Observable state of the batch loop: the run directory, the instance
identifiers whose failure was logged by the exception handler, the number
of `env.reset_container()` calls, the instances for which a PR was opened,
whether `env.close()` ran, and how the loop ended. -/
structure LoopState where
  dir : RunDir
  failed : List String
  containerResets : Nat
  prsOpened : List String
  envClosed : Bool
  exit : LoopExit
deriving DecidableEq, Repr

/-- Run-level oracle data for the loop: the script arguments and the results
of the external issue lookup calls made by `should_open_pr` (fixed by the
configured data path and token). -/
structure LoopCtx where
  args : ScriptArguments
  lookup : IssueLookup
  commits : List String

/-- One iteration of the `for index in range(len(env.data))` body of `main`,
returning the new state and whether the loop continues: `should_skip`
first (with its trajectory-file deletion), then the oracle step; on `ok`
the outcome is persisted by `save_predictions` and `save_patch` and, when
`open_pr` is set, gated by `should_open_pr` (whose `KeyError` is caught by
the same per-instance handler); `raises` logs the failure and either
aborts (strict mode) or resets the container and continues; `interrupt`
closes the environment and stops. -/
def stepRun (ctx : LoopCtx) (st : LoopState) (id : String)
    (step : AgentStep) : LoopState × Bool :=
  let skipResult := should_skip ctx.args st.dir.trajs id
  let st1 : LoopState := { st with dir := { st.dir with trajs := skipResult.2 } }
  if skipResult.1 then
    (st1, true)
  else
    match step with
    | .resetNone => (st1, true)
    | .interrupt => ({ st1 with envClosed := true, exit := .interrupted }, false)
    | .raises =>
        if ctx.args.raise_exceptions then
          ({ st1 with failed := st1.failed ++ [id], exit := .aborted }, false)
        else
          ({ st1 with failed := st1.failed ++ [id],
                      containerResets := st1.containerResets + 1 }, true)
    | .ok info =>
        let dir2 := save_predictions st1.dir id info
        let dir3 := (save_patch dir2 id info).2
        let st2 : LoopState := { st1 with dir := dir3 }
        if ctx.args.actions.open_pr then
          match should_open_pr ctx.args info ctx.lookup ctx.commits with
          | .keyError _ =>
              if ctx.args.raise_exceptions then
                ({ st2 with failed := st2.failed ++ [id], exit := .aborted }, false)
              else
                ({ st2 with failed := st2.failed ++ [id],
                            containerResets := st2.containerResets + 1 }, true)
          | .ok b =>
              (if b then { st2 with prsOpened := st2.prsOpened ++ [id] }
               else st2, true)
        else
          (st2, true)

/-- The batch loop of `main` over the dataset, each instance paired with its
oracle step, threading the loop state. -/
def runLoop (ctx : LoopCtx) (st : LoopState) :
    List (String × AgentStep) → LoopState
  | [] => st
  | (id, step) :: rest =>
      let r := stepRun ctx st id step
      if r.2 then runLoop ctx r.1 rest else r.1

/-- The loop state at the start of a fresh run: empty run directory with the
given run name, nothing failed, environment open. -/
def initState (run_name : String) : LoopState :=
  ⟨⟨run_name, [], [], []⟩, [], 0, [], false, .completed⟩

/-- Concrete script arguments for witnesses: the default-like configuration
with filter pattern `.*`, skip-existing on, non-strict mode, no PR opening. -/
def argsW : ScriptArguments :=
  ⟨⟨"https://github.com/org/repo/issues/1"⟩, ⟨false, true, ""⟩,
   .star .dot, true, false⟩

/-- A trajectory file whose outcome carries the early-exit sentinel. -/
def trajEarly : TrajFile := ⟨⟨some "early_exit"⟩⟩

/-- Arguments whose instance filter is the pattern `a`. -/
def argsFilterA : ScriptArguments :=
  ⟨⟨"https://github.com/org/repo/issues/1"⟩, ⟨false, true, ""⟩,
   .char 'a', true, false⟩

/-- Arguments whose instance filter is the pattern `a.*`. -/
def argsFilterAStar : ScriptArguments :=
  ⟨⟨"https://github.com/org/repo/issues/1"⟩, ⟨false, true, ""⟩,
   .cat (.char 'a') (.star .dot), true, false⟩

/-- C1: the skip decision follows the specified algorithm in order: filter
mismatch returns SKIP with the store untouched; with the skip-existing flag
disabled it returns PROCESS; with no trajectory file it returns PROCESS;
with a trajectory file whose exit status is missing or the early-exit
sentinel it deletes that file and returns PROCESS; with any other exit
status it returns SKIP and leaves the store untouched. -/
theorem shouldSkip_decision_spec (args : ScriptArguments)
    (trajs : List (String × TrajFile)) (id : String) :
    (reMatchStr args.instance_filter id = false →
        should_skip args trajs id = (true, trajs)) ∧
    (reMatchStr args.instance_filter id = true → args.skip_existing = false →
        should_skip args trajs id = (false, trajs)) ∧
    (reMatchStr args.instance_filter id = true → args.skip_existing = true →
        trajs.lookup id = none →
        should_skip args trajs id = (false, trajs)) ∧
    (∀ d, reMatchStr args.instance_filter id = true →
        args.skip_existing = true → trajs.lookup id = some d →
        (d.info.exit_status = some "early_exit" ∨ d.info.exit_status = none) →
        should_skip args trajs id =
          (false, trajs.filter (fun p => p.1 != id))) ∧
    (∀ d, reMatchStr args.instance_filter id = true →
        args.skip_existing = true → trajs.lookup id = some d →
        d.info.exit_status ≠ some "early_exit" → d.info.exit_status ≠ none →
        should_skip args trajs id = (true, trajs)) := by
  refine ⟨?_, ?_, ?_, ?_, ?_⟩
  · intro h
    simp [should_skip, h]
  · intro h1 h2
    simp [should_skip, h1, h2]
  · intro h1 h2 h3
    simp [should_skip, h1, h2, h3]
  · intro d h1 h2 h3 h4
    simp only [should_skip, h1, h2, h3]
    simp [if_pos h4]
  · intro d h1 h2 h3 h4 h5
    simp only [should_skip, h1, h2, h3]
    simp [h4, h5]

/-- Witness for C1: a trajectory file with the early-exit sentinel is deleted
and the instance is processed. -/
theorem shouldSkip_decision_spec_witness :
    should_skip argsW [("x", trajEarly)] "x" = (false, []) :=
  (shouldSkip_decision_spec argsW [("x", trajEarly)] "x").2.2.2.1 trajEarly
    (by decide) rfl (by decide) (Or.inl rfl)

/-- C2: evaluation of the filter semantics the code actually has.  With
filter pattern `a` the identifier `a1` is PROCESSED by `should_skip`
(because `re.match` anchors only at the start of the identifier), even
though `a` does not match the entire identifier `a1` — contradicting the
claimed full-match semantics and the source's own comment "Only run
instances that completely match this regex".  The spec's concrete example
is unaffected: with pattern `a.*` the identifiers `a1` and `a2` are
processed and `b1` is skipped under both semantics. -/
theorem instanceFilter_match_semantics_eval :
    should_skip argsFilterA [] "a1" = (false, []) ∧
    reFullmatchStr (Regex.char 'a') "a1" = false ∧
    should_skip argsFilterAStar [] "a1" = (false, []) ∧
    should_skip argsFilterAStar [] "a2" = (false, []) ∧
    should_skip argsFilterAStar [] "b1" = (true, []) ∧
    reFullmatchStr (Regex.cat (Regex.char 'a') (Regex.star Regex.dot))
      "a1" = true ∧
    reFullmatchStr (Regex.cat (Regex.char 'a') (Regex.star Regex.dot))
      "b1" = false := by
  decide

/-- C5: the actions-arguments constructor raises a configuration error
exactly when the skip-if-commits flag is disabled and the fork-push target
is non-empty; every other combination constructs the frozen value. -/
theorem mkActionsArguments_validation (o sk : Bool) (p : String) :
    (sk = false → p ≠ "" → mkActionsArguments o sk p = .valueError) ∧
    (sk = true ∨ p = "" → mkActionsArguments o sk p = .ok ⟨o, sk, p⟩) := by
  constructor
  · intro h1 h2
    simp [mkActionsArguments, h1, h2]
  · intro h
    rcases h with h | h <;> simp [mkActionsArguments, h]

/-- Witness for C5: disabling the skip-if-commits flag while setting a fork
URL fails at construction. -/
theorem mkActionsArguments_validation_witness :
    mkActionsArguments true false "https://github.com/user/fork" =
      CtorResult.valueError :=
  (mkActionsArguments_validation true false "https://github.com/user/fork").1
    rfl (by decide)

/-- An empty run directory used by witnesses. -/
def dirW : RunDir := ⟨"run", [], [], []⟩

/-- C8: persisting an outcome with no submission is not an error —
`save_patch` writes nothing and returns `none` while `save_predictions`
still appends a ledger line with a null prediction; with a submission
present, `save_patch` writes exactly the submission text to the instance's
patch file, so a readback is byte-identical. -/
theorem persist_no_submission_and_roundtrip (dir : RunDir) (id : String)
    (info : Info) :
    (info.submission = none →
        save_patch dir id info = (none, dir) ∧
        (save_predictions dir id info).ledger =
          dir.ledger ++ [⟨dir.run_name, id, none⟩]) ∧
    (∀ s, info.submission = some s →
        (save_patch dir id info).1 = some (id ++ ".patch") ∧
        readText ((save_patch dir id info).2).patches (id ++ ".patch") =
          some s) := by
  constructor
  · intro h
    constructor
    · simp [save_patch, h]
    · simp [save_predictions, h]
  · intro s h
    constructor
    · simp [save_patch, h]
    · simp [save_patch, h, readText, writeText]

/-- Witness for C8: a concrete submission round-trips through the patch
file byte-identically, and a missing submission writes nothing. -/
theorem persist_no_submission_and_roundtrip_witness :
    readText ((save_patch dirW "inst"
        ⟨some "diff text", some "submitted"⟩).2).patches "inst.patch" =
      some "diff text" :=
  ((persist_no_submission_and_roundtrip dirW "inst"
      ⟨some "diff text", some "submitted"⟩).2 "diff text" rfl).2

/-- C9: every call to `save_predictions` appends exactly one line — the
triple (run name, instance identifier, submission-or-null) — to the ledger
and leaves all previously written ledger content, the trajectory files and
the patch files unchanged: the ledger is append-only, never rewritten in
place. -/
theorem savePredictions_append_only (dir : RunDir) (id : String)
    (info : Info) :
    (save_predictions dir id info).ledger =
      dir.ledger ++ [⟨dir.run_name, id, info.submission⟩] ∧
    (save_predictions dir id info).ledger.take dir.ledger.length =
      dir.ledger ∧
    (save_predictions dir id info).trajs = dir.trajs ∧
    (save_predictions dir id info).patches = dir.patches ∧
    (save_predictions dir id info).run_name = dir.run_name := by
  refine ⟨rfl, ?_, rfl, rfl, rfl⟩
  simp [save_predictions, List.take_append]

/-- C10: the patch writer and the PR gate disagree at the empty-string
submission: `save_patch` tests key presence, so it writes an empty patch
artifact, while `should_open_pr` tests truthiness, so it returns INELIGIBLE
for every exit status, issue state and commit list. -/
theorem savePatch_vs_prGate_empty_submission (args : ScriptArguments)
    (es : Option String) (lookup : IssueLookup) (commits : List String)
    (dir : RunDir) (id : String) :
    should_open_pr args ⟨some "", es⟩ lookup commits = .ok false ∧
    (save_patch dir id ⟨some "", es⟩).1 = some (id ++ ".patch") ∧
    readText ((save_patch dir id ⟨some "", es⟩).2).patches (id ++ ".patch") =
      some "" := by
  refine ⟨?_, ?_, ?_⟩
  · simp [should_open_pr, truthyOptStr]
  · simp [save_patch]
  · simp [save_patch, readText, writeText]

/-- C3: the PR gate evaluates its checks in the fixed short-circuit order of
the source, first failing check wins: no truthy submission is INELIGIBLE
for every value of the issue lookup (the lookup is not consulted); exit
status other than "submitted" is INELIGIBLE; an unrecognized issue host is
INELIGIBLE; a non-open issue is INELIGIBLE; a locked issue is INELIGIBLE;
associated commits with the skip flag set are INELIGIBLE; associated
commits with the flag unset are ELIGIBLE (with a warning logged); otherwise
ELIGIBLE. -/
theorem shouldOpenPr_decision_order (args : ScriptArguments) (info : Info)
    (lookup : IssueLookup) (commits : List String) :
    (truthyOptStr info.submission = false →
        should_open_pr args info lookup commits = .ok false) ∧
    (∀ es, truthyOptStr info.submission = true →
        info.exit_status = some es → es ≠ "submitted" →
        should_open_pr args info lookup commits = .ok false) ∧
    (truthyOptStr info.submission = true →
        info.exit_status = some "submitted" → lookup = .invalidGithubURL →
        should_open_pr args info lookup commits = .ok false) ∧
    (∀ issue, truthyOptStr info.submission = true →
        info.exit_status = some "submitted" → lookup = .found issue →
        issue.state ≠ "open" →
        should_open_pr args info lookup commits = .ok false) ∧
    (∀ issue, truthyOptStr info.submission = true →
        info.exit_status = some "submitted" → lookup = .found issue →
        issue.state = "open" → issue.locked = true →
        should_open_pr args info lookup commits = .ok false) ∧
    (∀ issue c cs, truthyOptStr info.submission = true →
        info.exit_status = some "submitted" → lookup = .found issue →
        issue.state = "open" → issue.locked = false → commits = c :: cs →
        args.actions.skip_if_commits_reference_issue = true →
        should_open_pr args info lookup commits = .ok false) ∧
    (∀ issue c cs, truthyOptStr info.submission = true →
        info.exit_status = some "submitted" → lookup = .found issue →
        issue.state = "open" → issue.locked = false → commits = c :: cs →
        args.actions.skip_if_commits_reference_issue = false →
        should_open_pr args info lookup commits = .ok true) ∧
    (∀ issue, truthyOptStr info.submission = true →
        info.exit_status = some "submitted" → lookup = .found issue →
        issue.state = "open" → issue.locked = false → commits = [] →
        should_open_pr args info lookup commits = .ok true) := by
  refine ⟨?_, ?_, ?_, ?_, ?_, ?_, ?_, ?_⟩
  · intro h
    simp [should_open_pr, h]
  · intro es h1 h2 h3
    simp [should_open_pr, h1, h2, h3]
  · intro h1 h2 h3
    simp [should_open_pr, h1, h2, h3]
  · intro issue h1 h2 h3 h4
    simp [should_open_pr, h1, h2, h3, h4]
  · intro issue h1 h2 h3 h4 h5
    simp [should_open_pr, h1, h2, h3, h4, h5]
  · intro issue c cs h1 h2 h3 h4 h5 h6 h7
    simp [should_open_pr, h1, h2, h3, h4, h5, h6, h7]
  · intro issue c cs h1 h2 h3 h4 h5 h6 h7
    simp [should_open_pr, h1, h2, h3, h4, h5, h6, h7]
  · intro issue h1 h2 h3 h4 h5 h6
    simp [should_open_pr, h1, h2, h3, h4, h5, h6]

/-- Witness for C3: a truthy submission with "submitted" status, an open
unlocked issue and no associated commits is ELIGIBLE. -/
theorem shouldOpenPr_decision_order_witness :
    should_open_pr argsW ⟨some "diff", some "submitted"⟩
      (.found ⟨"open", false⟩) [] = .ok true :=
  (shouldOpenPr_decision_order argsW ⟨some "diff", some "submitted"⟩
      (.found ⟨"open", false⟩) []).2.2.2.2.2.2.2 ⟨"open", false⟩
    (by decide) rfl rfl rfl rfl rfl

/-- Whether a PR-gate result is a raised exception rather than a returned
decision. -/
def prRaises : PrResult → Bool
  | .ok _ => false
  | .keyError _ => true

/-- C4 counterexample: `should_open_pr` is NOT total — on an outcome whose
submission is present and truthy but which lacks the `exit_status` key,
the bare indexing `info["exit_status"]` raises a `KeyError` instead of
returning an eligibility decision. -/
theorem shouldOpenPr_total_counterexample :
    should_open_pr argsW ⟨some "diff", none⟩ .invalidGithubURL [] =
      .keyError "exit_status" ∧
    prRaises (should_open_pr argsW ⟨some "diff", none⟩
      .invalidGithubURL []) = true := by
  constructor
  · simp [should_open_pr, truthyOptStr]
  · simp [should_open_pr, truthyOptStr, prRaises]

/-- C4 amended: `should_open_pr` is pure (its only interaction is the
external lookup, here an explicit parameter) and returns an eligibility
decision without raising on every outcome that either has no truthy
submission or carries an exit-status field; the single raising case is a
truthy submission together with a missing exit-status field. -/
theorem shouldOpenPr_total_amended (args : ScriptArguments) (info : Info)
    (lookup : IssueLookup) (commits : List String)
    (h : truthyOptStr info.submission = true → info.exit_status ≠ none) :
    prRaises (should_open_pr args info lookup commits) = false := by
  unfold should_open_pr
  cases hsub : truthyOptStr info.submission with
  | false => simp [prRaises]
  | true =>
    cases hE : info.exit_status with
    | none => exact absurd hE (h hsub)
    | some es =>
      simp only [Bool.true_eq_false, if_false]
      split <;> try rfl
      split <;> try rfl
      split <;> try rfl
      split <;> try rfl
      split <;> try rfl
      split <;> rfl

/-- Witness for C4 amended: with the exit-status field present the gate
returns a decision without raising. -/
theorem shouldOpenPr_total_amended_witness :
    prRaises (should_open_pr argsW ⟨some "diff", some "exit_cost"⟩
      .invalidGithubURL []) = false :=
  shouldOpenPr_total_amended argsW ⟨some "diff", some "exit_cost"⟩
    .invalidGithubURL [] (by decide)

/-- Run-level oracle for the concrete three-instance batch. -/
def ctx3 : LoopCtx := ⟨argsW, .invalidGithubURL, []⟩

/-- Three instances: the first and third succeed with submissions, the
second raises during processing. -/
def steps3 : List (String × AgentStep) :=
  [("i1", .ok ⟨some "p1", some "submitted"⟩),
   ("i2", .raises),
   ("i3", .ok ⟨some "p3", some "submitted"⟩)]

/-- C6: in non-strict mode an instance whose processing raises is logged as
failed with its identifier, the container is reset to a clean baseline, and
the loop proceeds to the remaining instances from that state; in strict
mode the error propagates and the batch terminates without touching the
remaining instances.  In particular, for three instances of which the
second raises under non-strict mode, the ledger ends with exactly the two
entries for the first and third instance. -/
theorem runLoop_failure_isolation :
    (∀ (ctx : LoopCtx) (st : LoopState) (id : String)
        (rest : List (String × AgentStep)) (t1 : List (String × TrajFile)),
        ctx.args.raise_exceptions = false →
        should_skip ctx.args st.dir.trajs id = (false, t1) →
        runLoop ctx st ((id, .raises) :: rest) =
          runLoop ctx
            { st with dir := { st.dir with trajs := t1 },
                      failed := st.failed ++ [id],
                      containerResets := st.containerResets + 1 } rest) ∧
    (∀ (ctx : LoopCtx) (st : LoopState) (id : String)
        (rest : List (String × AgentStep)) (t1 : List (String × TrajFile)),
        ctx.args.raise_exceptions = true →
        should_skip ctx.args st.dir.trajs id = (false, t1) →
        runLoop ctx st ((id, .raises) :: rest) =
          { st with dir := { st.dir with trajs := t1 },
                    failed := st.failed ++ [id],
                    exit := .aborted }) ∧
    ((runLoop ctx3 (initState "run") steps3).dir.ledger =
        [⟨"run", "i1", some "p1"⟩, ⟨"run", "i3", some "p3"⟩] ∧
     (runLoop ctx3 (initState "run") steps3).dir.ledger.length = 2 ∧
     (runLoop ctx3 (initState "run") steps3).failed = ["i2"] ∧
     (runLoop ctx3 (initState "run") steps3).containerResets = 1 ∧
     (runLoop ctx3 (initState "run") steps3).exit = .completed) := by
  refine ⟨?_, ?_, ?_⟩
  · intro ctx st id rest t1 hre hskip
    simp [runLoop, stepRun, hskip, hre]
  · intro ctx st id rest t1 hre hskip
    simp [runLoop, stepRun, hskip, hre]
  · refine ⟨by decide, by decide, by decide, by decide, by decide⟩

/-- Witness for C6: the non-strict single raising instance logs the failure,
resets the container and continues into the (empty) remainder. -/
theorem runLoop_failure_isolation_witness :
    runLoop ctx3 (initState "run") [("i2", .raises)] =
      runLoop ctx3
        { initState "run" with failed := ["i2"], containerResets := 1 } [] :=
  runLoop_failure_isolation.1 ctx3 (initState "run") "i2" [] []
    rfl (by decide)

/-- C7: when an interrupt arrives at an instance in the batch loop, the loop
closes the external environment and terminates immediately with the
interrupted exit: the result does not depend on the remaining instances
(none is attempted), the interrupt is not logged as a per-instance failure,
and the ledger is left as it was. -/
theorem runLoop_interrupt_terminates
    (ctx : LoopCtx) (st : LoopState) (id : String)
    (rest : List (String × AgentStep)) (t1 : List (String × TrajFile))
    (hskip : should_skip ctx.args st.dir.trajs id = (false, t1)) :
    runLoop ctx st ((id, .interrupt) :: rest) =
      { st with dir := { st.dir with trajs := t1 },
                envClosed := true, exit := .interrupted } ∧
    (runLoop ctx st ((id, .interrupt) :: rest)).failed = st.failed ∧
    (runLoop ctx st ((id, .interrupt) :: rest)).dir.ledger =
      st.dir.ledger ∧
    (runLoop ctx st ((id, .interrupt) :: rest)).envClosed = true ∧
    (runLoop ctx st ((id, .interrupt) :: rest)).exit = .interrupted := by
  have hmain : runLoop ctx st ((id, .interrupt) :: rest) =
      { st with dir := { st.dir with trajs := t1 },
                envClosed := true, exit := .interrupted } := by
    simp [runLoop, stepRun, hskip]
  refine ⟨hmain, ?_, ?_, ?_, ?_⟩ <;> rw [hmain]

/-- Witness for C7: an interrupt at the first of two instances terminates
the loop at once with the environment closed; the second instance appears
nowhere in the result. -/
theorem runLoop_interrupt_terminates_witness :
    runLoop ctx3 (initState "run")
        [("i1", .interrupt), ("i2", .ok ⟨some "p2", some "submitted"⟩)] =
      { initState "run" with envClosed := true, exit := .interrupted } :=
  (runLoop_interrupt_terminates ctx3 (initState "run") "i1"
      [("i2", .ok ⟨some "p2", some "submitted"⟩)] [] (by decide)).1
